import Mathlib

/-!
Verification of the "none" (disabled) congestion-control variant of the
quiche recovery module (`src/quiche/src/recovery/congestion/none.rs`),
together with the congestion state container and selector parsing that the
module's contract refers to.

Machine integers (`usize`) are modelled as `Nat`; `usize::MAX` is the
explicit sentinel `usizeMax = 2^64 - 1`.  None of the modelled operations
performs arithmetic, so no overflow reduction is needed.  Rust's `&mut`
state is modelled by explicit state passing: each operation takes the
`Congestion` container (and, for `on_packets_acked`, the acked batch) and
returns the updated value(s).
-/

namespace QuicheNone

/-- `usize::MAX` on a 64-bit target: the "unbounded window" sentinel. -/
def usizeMax : Nat := 2 ^ 64 - 1

/-- `std::time::Instant`, opaque to the algorithm; modelled as a tick count. -/
abbrev Instant := Nat

/-- Modelled from the spec: `RttStats` (§3) lives outside the supplied
module.  "Smoothed RTT, latest RTT, minimum RTT, RTT variance.  Owned and
updated externally; read-only to the strategy interface."  Durations are
modelled as nanosecond counts. -/
structure RttStats where
  smoothed_rtt : Nat
  latest_rtt : Nat
  min_rtt : Nat
  rttvar : Nat
  deriving Repr, DecidableEq

/-- Modelled from the spec: the `Sent` packet record (§3) lives outside the
supplied module.  "Packet-number, send timestamp, byte size, whether the
packet requires acknowledgment, whether it currently counts toward
in-flight bytes." -/
structure Sent where
  pkt_num : Nat
  time_sent : Instant
  size : Nat
  ack_eliciting : Bool
  in_flight : Bool
  deriving Repr, DecidableEq

/-- Modelled from the spec: the `Acked` packet record (§3) lives outside
the supplied module.  "Packet-number, send timestamp, byte size." -/
structure Acked where
  pkt_num : Nat
  time_sent : Instant
  size : Nat
  deriving Repr, DecidableEq

/-- Modelled from the spec: the checkpoint snapshot (§4.3) lives outside
the supplied module.  A snapshot captures "window, slow-start threshold,
and algorithm-private fields". -/
structure Snapshot where
  congestion_window : Nat
  ssthresh : Nat
  private_state : Nat
  deriving Repr, DecidableEq

/-- Modelled from the spec: the congestion state container (§3) lives
outside the supplied module.  "Congestion window (non-negative byte
count), cached bytes-in-flight (mirrors caller-tracked value), slow-start
threshold, a checkpoint slot holding at most one saved snapshot, and
opaque per-algorithm private fields not interpreted by the interface
itself."  The opaque private fields are modelled as a single `Nat`. -/
structure Congestion where
  congestion_window : Nat
  bytes_in_flight : Nat
  ssthresh : Nat
  checkpoint_slot : Option Snapshot
  private_state : Nat
  deriving Repr, DecidableEq

/-- `fn on_init(r: &mut Congestion) { r.congestion_window = usize::MAX; }` -/
def on_init (r : Congestion) : Congestion :=
  { r with congestion_window := usizeMax }

/-- `fn on_packet_sent(_r, _sent_bytes, _bytes_in_flight, _now) {}` -/
def on_packet_sent (r : Congestion) (_sent_bytes : Nat)
    (_bytes_in_flight : Nat) (_now : Instant) : Congestion :=
  r

/-- `fn on_packets_acked(_r, _bytes_in_flight, packets, _now, _rtt_stats)
{ packets.clear(); }`.  The `&mut Vec<Acked>` argument is returned
alongside the container; `Vec::clear` empties it. -/
def on_packets_acked (r : Congestion) (_bytes_in_flight : Nat)
    (_packets : List Acked) (_now : Instant) (_rtt_stats : RttStats) :
    Congestion × List Acked :=
  (r, [])

/-- `fn congestion_event(_r, _bytes_in_flight, _lost_bytes,
_largest_lost_pkt, _now) {}` -/
def congestion_event (r : Congestion) (_bytes_in_flight : Nat)
    (_lost_bytes : Nat) (_largest_lost_pkt : Sent) (_now : Instant) :
    Congestion :=
  r

/-- `fn checkpoint(_r: &mut Congestion) {}` -/
def checkpoint (r : Congestion) : Congestion :=
  r

/-- `fn rollback(_r: &mut Congestion) -> bool { true }` -/
def rollback (r : Congestion) : Congestion × Bool :=
  (r, true)

/-- `fn state_str(_r: &Congestion, _now: Instant) -> &'static str
{ "none" }` (qlog feature).  Takes the container by shared reference, so
it cannot modify it; modelled as a pure function. -/
def state_str (_r : Congestion) (_now : Instant) : String :=
  "none"

/-- `fn debug_fmt(_r: &Congestion, f: &mut Formatter) -> fmt::Result
{ write!(f, "none") }`.  Modelled as the string the formatter receives. -/
def debug_fmt (_r : Congestion) : String :=
  "none"

/-- One invocation of a window-relevant operation of the bound variant, as
driven by the recovery engine: a send, an ack batch, or a loss event. -/
inductive Event where
  | sent (sent_bytes bytes_in_flight : Nat) (now : Instant)
  | acked (bytes_in_flight : Nat) (packets : List Acked) (now : Instant)
      (rtt_stats : RttStats)
  | loss (bytes_in_flight lost_bytes : Nat) (largest_lost_pkt : Sent)
      (now : Instant)
  deriving Repr

/-- Dispatch of one event to the "none" variant's operation table. -/
def applyEvent (r : Congestion) : Event → Congestion
  | .sent sent_bytes bytes_in_flight now =>
      on_packet_sent r sent_bytes bytes_in_flight now
  | .acked bytes_in_flight packets now rtt_stats =>
      (on_packets_acked r bytes_in_flight packets now rtt_stats).1
  | .loss bytes_in_flight lost_bytes largest_lost_pkt now =>
      congestion_event r bytes_in_flight lost_bytes largest_lost_pkt now

/-- A finite sequence of sends, ack batches, and loss events applied in
order to the container. -/
def runEvents (r : Congestion) (es : List Event) : Congestion :=
  es.foldl applyEvent r

/-- The algorithm-selector enumeration.  Variants other than the
reference one are named by the spec (§2) but not detailed. -/
inductive CongestionControlAlgorithm where
  | Reno
  | CUBIC
  | BBR
  | BBR2
  | None
  deriving Repr, DecidableEq

/-- Modelled from the spec: selector parsing (§4.4, §6) lives outside the
supplied module.  "A configuration value (textual, one of a closed set of
names) selects exactly one variant ... An unrecognized selector value is a
construction-time failure, not a silent fallback to a default algorithm."
The reference variant's name is "none" (module tests and module name). -/
def recognizedNames : List String :=
  ["reno", "cubic", "bbr", "bbr2", "none"]

/-- Modelled from the spec: the `FromStr` parse of the selector, returning
a typed variant for a recognized name and a parse failure otherwise. -/
def cc_from_string (s : String) : Except Unit CongestionControlAlgorithm :=
  if s = "reno" then .ok .Reno
  else if s = "cubic" then .ok .CUBIC
  else if s = "bbr" then .ok .BBR
  else if s = "bbr2" then .ok .BBR2
  else if s = "none" then .ok .None
  else .error ()

/-- A fully initialized container as at connection construction, before
`on_init` runs: zero bytes in flight, empty checkpoint slot. -/
def initialCongestion : Congestion :=
  { congestion_window := 12000
    bytes_in_flight := 0
    ssthresh := usizeMax
    checkpoint_slot := Option.none
    private_state := 0 }

theorem applyEvent_id (r : Congestion) (e : Event) : applyEvent r e = r := by
  cases e <;> rfl

theorem runEvents_id (r : Congestion) (es : List Event) :
    runEvents r es = r := by
  induction es generalizing r with
  | nil => rfl
  | cons e es ih =>
      show runEvents (applyEvent r e) es = r
      rw [applyEvent_id, ih]

/-- C1: after `on_init`, the congestion window remains at the `usize::MAX`
sentinel across every finite sequence of `on_packet_sent`,
`on_packets_acked`, and `congestion_event` invocations. -/
theorem none_window_constant_after_init (r : Congestion) (es : List Event) :
    (runEvents (on_init r) es).congestion_window = usizeMax := by
  rw [runEvents_id]
  rfl

/-- C2: `rollback` returns `true` for every state of the container,
including when no checkpoint was ever taken, and leaves the container
unchanged. -/
theorem rollback_always_true_and_pure (r : Congestion) :
    rollback r = (r, true) :=
  rfl

/-- C3: `on_init` sets the congestion window to the `usize::MAX` sentinel,
for every prior state of the container. -/
theorem on_init_sets_window_to_max (r : Congestion) :
    (on_init r).congestion_window = usizeMax :=
  rfl

/-- C4: for every input batch of `Acked` records, the batch is empty after
`on_packets_acked` returns. -/
theorem on_packets_acked_drains_batch (r : Congestion)
    (bytes_in_flight : Nat) (packets : List Acked) (now : Instant)
    (rtt_stats : RttStats) :
    (on_packets_acked r bytes_in_flight packets now rtt_stats).2 = [] :=
  rfl

/-- C5: `congestion_event` leaves every field of the container unchanged
for every combination of inputs; in particular, after sending one
maximum-size packet and declaring it lost, the window remains at the
`usize::MAX` sentinel. -/
theorem congestion_event_noop :
    (∀ (r : Congestion) (bytes_in_flight lost_bytes : Nat)
        (largest_lost_pkt : Sent) (now : Instant),
      congestion_event r bytes_in_flight lost_bytes largest_lost_pkt now =
        r) ∧
    (∀ (r : Congestion) (size : Nat) (lost_pkt : Sent)
        (t1 t2 : Instant),
      (congestion_event (on_packet_sent (on_init r) size size t1) size size
          lost_pkt t2).congestion_window = usizeMax) :=
  ⟨fun _ _ _ _ _ => rfl, fun _ _ _ _ _ => rfl⟩

/-- C6: `checkpoint` stores nothing and leaves every field of the
container unchanged, for every state; `checkpoint` immediately followed by
`rollback` leaves the window unchanged. -/
theorem checkpoint_noop_and_rollback_preserves (r : Congestion) :
    checkpoint r = r ∧ (rollback (checkpoint r)).1 = r :=
  ⟨rfl, rfl⟩

/-- C7: parsing the selector string "none" succeeds and yields the
reference variant; parsing any string outside the closed set of recognized
names returns a parse failure. -/
theorem cc_from_string_none_ok_and_unrecognized_fails :
    cc_from_string "none" = .ok .None ∧
    ∀ s : String, s ∉ recognizedNames → cc_from_string s = .error () := by
  refine ⟨rfl, fun s hs => ?_⟩
  simp only [recognizedNames, List.mem_cons, List.mem_singleton, not_or] at hs
  obtain ⟨h1, h2, h3, h4, h5⟩ := hs
  simp [cc_from_string, h1, h2, h3, h4, h5]

/-- Concrete instance of C7's failure half at an unrecognized name. -/
theorem cc_from_string_unrecognized_witness :
    cc_from_string "bogus" = .error () :=
  cc_from_string_none_ok_and_unrecognized_fails.2 "bogus" (by decide)

/-- C8: if the container starts with bytes-in-flight 0, then after
`on_init`, bytes-in-flight is 0 and the window is strictly positive. -/
theorem on_init_bif_zero_window_pos (r : Congestion)
    (h : r.bytes_in_flight = 0) :
    (on_init r).bytes_in_flight = 0 ∧ 0 < (on_init r).congestion_window :=
  ⟨h, by simp [on_init, usizeMax]⟩

/-- Concrete instance of C8 at the construction-time container. -/
theorem on_init_bif_zero_window_pos_witness :
    initialCongestion.bytes_in_flight = 0 ∧
      (on_init initialCongestion).bytes_in_flight = 0 ∧
      0 < (on_init initialCongestion).congestion_window :=
  ⟨rfl, on_init_bif_zero_window_pos initialCongestion rfl⟩

/-- C9: `on_init` writes only the congestion-window field: bytes-in-flight,
slow-start threshold, checkpoint slot, and private state are all left
exactly as they were (in particular it does not itself zero
bytes-in-flight). -/
theorem on_init_frame (r : Congestion) :
    (on_init r).bytes_in_flight = r.bytes_in_flight ∧
    (on_init r).ssthresh = r.ssthresh ∧
    (on_init r).checkpoint_slot = r.checkpoint_slot ∧
    (on_init r).private_state = r.private_state :=
  ⟨rfl, rfl, rfl, rfl⟩

/-- C10: `state_str` and `debug_fmt` produce the same output "none" for
any two containers and any two timestamps; both are pure functions of a
shared reference, so neither modifies the container. -/
theorem diagnostics_constant (r1 r2 : Congestion) (t1 t2 : Instant) :
    state_str r1 t1 = state_str r2 t2 ∧ state_str r1 t1 = "none" ∧
    debug_fmt r1 = debug_fmt r2 ∧ debug_fmt r1 = "none" :=
  ⟨rfl, rfl, rfl, rfl⟩

end QuicheNone
